import Mathlib

/-!
Verification of the MoQT message layer (moqt_messages.cc) and its framer
against the natural-language specification.  The symbol tables and the
filter resolver are embedded from src/quiche/quic/moqt/moqt_messages.cc;
the framer (moqt_framer.cc is not among the sources, only its unit test
moqt_framer_test.cc) is modelled from the specification, section 4.3.
Machine integers (uint64_t, 62-bit varint payloads) are modelled as Nat:
none of the arithmetic involved (comparisons, plus one on a 62-bit
inclusive bound) can overflow in the ranges the protocol admits.
-/

namespace Moqt

/-- Filter type for a subscription, spec section 3 and moqt_messages.h
(header not among the sources; the five alternatives appear verbatim in
moqt_messages.cc and the spec). -/
inductive MoqtFilterType where
  | kNone
  | kLatestGroup
  | kLatestObject
  | kAbsoluteStart
  | kAbsoluteRange
  deriving DecidableEq, Repr

/-- Forwarding preference, the closed four-value set of spec section 3. -/
inductive MoqtForwardingPreference where
  | kObject
  | kDatagram
  | kTrack
  | kGroup
  deriving DecidableEq, Repr

/-- Data-stream kind, the closed five-value set of spec section 3. -/
inductive MoqtDataStreamType where
  | kObjectStream
  | kObjectDatagram
  | kStreamHeaderTrack
  | kStreamHeaderGroup
  | kPadding
  deriving DecidableEq, Repr

/-- Object status.  Modelled from the spec: the declaring header
moqt_messages.h is not among the sources; the spec (section 3) fixes the
declared wire values 0 through 4 plus a reserved/unknown sentinel, and
moqt_messages.cc and the framer test use kNormal, kEndOfGroup and
kInvalidObjectStatus by name. -/
inductive MoqtObjectStatus where
  | kNormal
  | kObjectDoesNotExist
  | kGroupDoesNotExist
  | kEndOfGroup
  | kEndOfTrack
  | kInvalidObjectStatus
  deriving DecidableEq, Repr

/-- Wire value of each declared object status (spec section 3: declared
statuses occupy wire values 0 through 4; the sentinel is not a declared
wire value and is given the first reserved value). -/
def objectStatusWire : MoqtObjectStatus → Nat
  | .kNormal => 0
  | .kObjectDoesNotExist => 1
  | .kGroupDoesNotExist => 2
  | .kEndOfGroup => 3
  | .kEndOfTrack => 4
  | .kInvalidObjectStatus => 5

/-- Embedding of IntegerToObjectStatus (moqt_messages.cc lines 14-19):
values at least 0x5 give the invalid sentinel, anything below is
static_cast to the enumerator of that wire value. -/
def IntegerToObjectStatus (integer : Nat) : MoqtObjectStatus :=
  if 5 ≤ integer then MoqtObjectStatus.kInvalidObjectStatus
  else if integer = 0 then MoqtObjectStatus.kNormal
  else if integer = 1 then MoqtObjectStatus.kObjectDoesNotExist
  else if integer = 2 then MoqtObjectStatus.kGroupDoesNotExist
  else if integer = 3 then MoqtObjectStatus.kEndOfGroup
  else MoqtObjectStatus.kEndOfTrack

/-- Subscribe parameters (the framer test populates the authorization
info entry). -/
structure MoqtSubscribeParameters where
  authorization_info : Option String
  deriving DecidableEq, Repr

/-- The MoqtSubscribe record, field list and order as in the framer
test's aggregate initializers (moqt_framer_test.cc lines 302-314). -/
structure MoqtSubscribe where
  subscribe_id : Nat
  track_alias : Nat
  track_namespace : String
  track_name : String
  subscriber_priority : Nat
  group_order : Option Nat
  start_group : Option Nat
  start_object : Option Nat
  end_group : Option Nat
  end_object : Option Nat
  parameters : MoqtSubscribeParameters
  deriving DecidableEq, Repr

/-- Embedding of GetFilterType (moqt_messages.cc lines 21-55).  The
source reads the four optional range fields with std::optional
operator star.  On one control path it dereferences message.end_object
without a has_value check: when start_group, start_object and end_group
are all present and end_group equals start_group, line 32 evaluates
star-end_object even if end_object is absent, which is undefined
behavior for std::optional.  The embedding returns none exactly on that
path and some of the source's filter type on every defined path.  The
conjunction on line 31 short-circuits, so end_object is not read when
end_group differs from start_group. -/
def GetFilterType (m : MoqtSubscribe) : Option MoqtFilterType :=
  if m.end_group.isNone && m.end_object.isSome then
    some MoqtFilterType.kNone
  else
    match m.end_group, m.start_group, m.start_object with
    | some eg, some sg, some so =>
      if eg < sg then
        some MoqtFilterType.kNone
      else if eg = sg then
        match m.end_object with
        | none => none
        | some eo =>
          if eo ≤ so then
            if eo < so then some MoqtFilterType.kNone
            else some MoqtFilterType.kAbsoluteStart
          else some MoqtFilterType.kAbsoluteRange
      else some MoqtFilterType.kAbsoluteRange
    | some _, _, _ => some MoqtFilterType.kNone
    | none, some _, some _ => some MoqtFilterType.kAbsoluteStart
    | none, none, none => some MoqtFilterType.kLatestObject
    | none, none, some so =>
      if so = 0 then some MoqtFilterType.kLatestGroup
      else some MoqtFilterType.kNone
    | none, some _, none => some MoqtFilterType.kNone

/-- The Filter Resolver decision table of spec section 4.2, written from
the spec's words over the four optional range endpoints, in the spec's
precedence order (rule 1: end-object without end-group; rule 2:
end-group present; rule 3: both ends absent). -/
def specFilterType (sg so eg eo : Option Nat) : MoqtFilterType :=
  match eg with
  | none =>
    match eo with
    | some _ => MoqtFilterType.kNone
    | none =>
      match sg, so with
      | some _, some _ => MoqtFilterType.kAbsoluteStart
      | none, none => MoqtFilterType.kLatestObject
      | none, some o => if o = 0 then MoqtFilterType.kLatestGroup else MoqtFilterType.kNone
      | some _, none => MoqtFilterType.kNone
  | some g =>
    match sg, so with
    | some s, some o =>
      if g < s then MoqtFilterType.kNone
      else
        match eo with
        | some e =>
          if g = s ∧ e ≤ o then
            (if e < o then MoqtFilterType.kNone else MoqtFilterType.kAbsoluteStart)
          else MoqtFilterType.kAbsoluteRange
        | none => MoqtFilterType.kAbsoluteRange
    | _, _ => MoqtFilterType.kNone

/-- Embedding of GetForwardingPreference (moqt_messages.cc lines
130-146).  For kPadding the switch falls to the default branch, raises
the QUIC_BUG diagnostic and then returns kObject; the companion function
GetForwardingPreferenceHitsBug records which inputs raise the bug. -/
def GetForwardingPreference : MoqtDataStreamType → MoqtForwardingPreference
  | .kObjectStream => .kObject
  | .kObjectDatagram => .kDatagram
  | .kStreamHeaderTrack => .kTrack
  | .kStreamHeaderGroup => .kGroup
  | .kPadding => .kObject

/-- True exactly on the inputs for which GetForwardingPreference
executes its QUIC_BUG fatal-assertion branch (the switch default,
reached only by kPadding among the declared enumerators). -/
def GetForwardingPreferenceHitsBug : MoqtDataStreamType → Bool
  | .kPadding => true
  | _ => false

/-- Embedding of GetMessageTypeForForwardingPreference
(moqt_messages.cc lines 148-163); total over the four preferences, the
trailing QUIC_BUG is unreachable. -/
def GetMessageTypeForForwardingPreference :
    MoqtForwardingPreference → MoqtDataStreamType
  | .kObject => .kObjectStream
  | .kDatagram => .kObjectDatagram
  | .kTrack => .kStreamHeaderTrack
  | .kGroup => .kStreamHeaderGroup

/-- Modelled from the spec: the variable-length integer primitive of
section 3 (an external primitive, not among the sources), encoding an
unsigned integer of up to 62 bits in 1, 2, 4 or 8 bytes depending on
magnitude, with the two leading bits of the first byte giving the
length. -/
def varint (n : Nat) : List Nat :=
  if n < 64 then [n]
  else if n < 16384 then [64 + n / 256, n % 256]
  else if n < 1073741824 then
    [128 + n / 2 ^ 24, n / 2 ^ 16 % 256, n / 2 ^ 8 % 256, n % 256]
  else
    [192 + n / 2 ^ 56 % 256, n / 2 ^ 48 % 256, n / 2 ^ 40 % 256,
     n / 2 ^ 32 % 256, n / 2 ^ 24 % 256, n / 2 ^ 16 % 256,
     n / 2 ^ 8 % 256, n % 256]

theorem varint_ne_nil (n : Nat) : varint n ≠ [] := by
  unfold varint
  split <;> [skip; split] <;> [simp; skip; split] <;> simp

/-- Result of one framer call: either a complete encoding, or a fatal
contract violation carrying its QUIC_BUG diagnostic (spec section 4.3:
every precondition violation is fatal, reported through a diagnostic
channel, with an empty output buffer). -/
inductive FramerResult where
  | ok (bytes : List Nat)
  | bug (diagnostic : String)
  deriving DecidableEq, Repr

/-- The bytes the caller receives: the encoding on success and the
empty buffer after a fatal contract violation. -/
def FramerResult.output : FramerResult → List Nat
  | .ok bytes => bytes
  | .bug _ => []

/-- A length-prefixed byte run for a string field (spec section 4.3:
strings are encoded as length-prefixed byte runs). -/
def stringField (s : String) : List Nat :=
  varint s.length ++ s.data.map Char.toNat

/-- Wire value of each filter type tag (spec section 4.3: the Subscribe
encoding carries a derived filter type tag; kNone is never placed on
the wire and is given the reserved value 0). -/
def filterTypeWire : MoqtFilterType → Nat
  | .kNone => 0
  | .kLatestGroup => 1
  | .kLatestObject => 2
  | .kAbsoluteStart => 3
  | .kAbsoluteRange => 4

/-- The range fields the Subscribe encoding emits for a given filter
type (spec section 4.3): none for the Latest kinds, the start pair for
AbsoluteStart, and the start pair plus end-group plus the exclusive
wire end-object (inclusive end-object incremented by one; 0 when
absent, 0 being the wire marker for no object bound) for
AbsoluteRange. -/
def subscribeRangeFields (m : MoqtSubscribe) : MoqtFilterType → List Nat
  | .kAbsoluteStart => [m.start_group.getD 0, m.start_object.getD 0]
  | .kAbsoluteRange =>
    [m.start_group.getD 0, m.start_object.getD 0, m.end_group.getD 0,
     match m.end_object with
     | some e => e + 1
     | none => 0]
  | _ => []

/-- Trailing parameter map of the Subscribe encoding (spec section 4.3:
key to opaque-bytes pairs; only the authorization-info entry is
modelled, as in the framer test). -/
def subscribeParamBytes (p : MoqtSubscribeParameters) : List Nat :=
  match p.authorization_info with
  | some s => varint 1 ++ varint 2 ++ stringField s
  | none => varint 0

/-- The fixed-order head of the Subscribe encoding before the filter
type tag (spec section 4.3: wire tag, subscribe id, track alias,
length-prefixed namespace and name, priority byte, group-order
byte). -/
def subscribeHeadBytes (m : MoqtSubscribe) : List Nat :=
  varint 3 ++ varint m.subscribe_id ++ varint m.track_alias ++
  stringField m.track_namespace ++ stringField m.track_name ++
  [m.subscriber_priority % 256] ++ [(m.group_order.getD 0) % 256]

/-- Modelled from the spec: SerializeSubscribe of the Framer
(moqt_framer.cc, not among the sources; behavior checked against
moqt_framer_test.cc).  Spec section 4.3: encoding first computes the
filter type via the section 4.2 table; if the result is kNone it fails
fatally with the invalid-range diagnostic and produces zero output
bytes, otherwise it emits the head, the filter type tag, the range
fields that type requires as varints, and the parameter map. -/
def serializeSubscribe (m : MoqtSubscribe) : FramerResult :=
  match specFilterType m.start_group m.start_object m.end_group m.end_object with
  | .kNone => .bug "Invalid object range"
  | ft =>
    .ok (subscribeHeadBytes m ++ varint (filterTypeWire ft) ++
         ((subscribeRangeFields m ft).map varint).flatten ++
         subscribeParamBytes m.parameters)

/-- The MoqtObject record, field list and order as in the framer test's
aggregate initializers (moqt_framer_test.cc lines 248-257). -/
structure MoqtObject where
  subscribe_id : Nat
  track_alias : Nat
  group_id : Nat
  object_id : Nat
  publisher_priority : Nat
  object_status : MoqtObjectStatus
  forwarding_preference : MoqtForwardingPreference
  payload_length : Option Nat
  deriving DecidableEq, Repr

/-- Wire tag of each data-stream kind (spec section 6: fixed short
values; exact numbers are taken from the draft conventions and do not
affect any claim). -/
def dataStreamTypeWire : MoqtDataStreamType → Nat
  | .kObjectStream => 0
  | .kObjectDatagram => 1
  | .kStreamHeaderTrack => 80
  | .kStreamHeaderGroup => 81
  | .kPadding => 38

/-- Modelled from the spec: the object header layout (spec section 4.3).
On the first object in a stream the full header is emitted (stream-kind
tag, subscribe id, track alias, group id, object id, priority byte,
and, when supplied, the payload length, then the status); on subsequent
objects only the fields that can vary (object id, possibly length,
status). -/
def objectHeaderBytes (obj : MoqtObject) (is_first_in_stream : Bool) : List Nat :=
  if is_first_in_stream then
    varint (dataStreamTypeWire
      (GetMessageTypeForForwardingPreference obj.forwarding_preference)) ++
    varint obj.subscribe_id ++ varint obj.track_alias ++
    varint obj.group_id ++ varint obj.object_id ++
    [obj.publisher_priority % 256] ++
    (match obj.payload_length with
     | some l => varint l
     | none => []) ++
    varint (objectStatusWire obj.object_status)
  else
    varint obj.object_id ++
    (match obj.payload_length with
     | some l => varint l
     | none => []) ++
    varint (objectStatusWire obj.object_status)

/-- Modelled from the spec: SerializeObjectHeader of the Framer
(moqt_framer.cc, not among the sources; diagnostics and behavior
checked against moqt_framer_test.cc lines 247-272).  Spec section 4.3,
in the order the spec lists the rules: Datagram preference must be
first in stream; Group preference requires a known payload length; a
non-zero payload length requires status kNormal. -/
def serializeObjectHeader (obj : MoqtObject) (is_first_in_stream : Bool) :
    FramerResult :=
  if obj.forwarding_preference = .kDatagram ∧ is_first_in_stream = false then
    .bug "must be first"
  else if obj.forwarding_preference = .kGroup ∧ obj.payload_length = none then
    .bug "requires knowing the object length"
  else if obj.payload_length.getD 0 ≠ 0 ∧ obj.object_status ≠ .kNormal then
    .bug "Object status must be kNormal if payload is non-empty"
  else
    .ok (objectHeaderBytes obj is_first_in_stream)

/-- The MoqtSubscribeUpdate record, field list and order as in the
framer test's aggregate initializers (moqt_framer_test.cc lines
399-407): the start pair is non-optional, the end pair optional. -/
structure MoqtSubscribeUpdate where
  subscribe_id : Nat
  start_group : Nat
  start_object : Nat
  end_group : Option Nat
  end_object : Option Nat
  subscriber_priority : Nat
  authorization_info : Option String
  deriving DecidableEq, Repr

/-- The wire integer fields of the SubscribeUpdate encoding, in order
(spec section 4.3): subscribe id, start-group, start-object, the
end-group field (caller's end-group plus one when present, else 0) and
the end-object field (caller's end-object plus one when present, else
the literal 0, 0 meaning no object bound). -/
def subscribeUpdateWireFields (m : MoqtSubscribeUpdate) : List Nat :=
  [m.subscribe_id, m.start_group, m.start_object,
   (match m.end_group with
    | some g => g + 1
    | none => 0),
   (match m.end_object with
    | some o => o + 1
    | none => 0)]

/-- Modelled from the spec: SerializeSubscribeUpdate of the Framer
(moqt_framer.cc, not among the sources; behavior checked against
moqt_framer_test.cc lines 398-450).  Spec section 4.3: an end-object
without an end-group fails fatally with the invalid-range diagnostic;
otherwise the encoding is the wire tag, the five integer fields as
varints, the priority byte and the authorization info. -/
def serializeSubscribeUpdate (m : MoqtSubscribeUpdate) : FramerResult :=
  if m.end_group = none ∧ m.end_object ≠ none then
    .bug "Invalid object range"
  else
    .ok (varint 2 ++ ((subscribeUpdateWireFields m).map varint).flatten ++
         [m.subscriber_priority % 256] ++
         (match m.authorization_info with
          | some s => varint 1 ++ varint 2 ++ stringField s
          | none => varint 0))

theorem subscribeHeadBytes_ne_nil (m : MoqtSubscribe) :
    subscribeHeadBytes m ≠ [] := by
  unfold subscribeHeadBytes
  intro h
  simp only [List.append_eq_nil] at h
  exact varint_ne_nil 3 h.1.1.1.1.1.1

theorem objectHeaderBytes_ne_nil (obj : MoqtObject) (first : Bool) :
    objectHeaderBytes obj first ≠ [] := by
  unfold objectHeaderBytes
  split <;> (intro h; simp only [List.append_eq_nil] at h)
  · exact varint_ne_nil _ h.1.1.1.1.1.1.1
  · exact varint_ne_nil _ h.1.1

/-- On every control path where GetFilterType performs no undefined
dereference of an absent optional, it returns exactly the filter type
the section 4.2 decision table dictates for the four range fields. -/
theorem getFilterType_agrees_when_defined (m : MoqtSubscribe)
    (ft : MoqtFilterType) (h : GetFilterType m = some ft) :
    ft = specFilterType m.start_group m.start_object m.end_group m.end_object := by
  unfold GetFilterType at h
  unfold specFilterType
  rcases hsg : m.start_group with _ | s <;>
    rcases hso : m.start_object with _ | o <;>
      rcases heg : m.end_group with _ | g <;>
        rcases heo : m.end_object with _ | e <;>
          simp only [hsg, hso, heg, heo] at h ⊢ <;>
            simp_all <;> split_ifs at h ⊢ <;> simp_all

/-- C1: the claim that GetFilterType matches the section 4.2 decision
table on every presence/absence and numeric combination fails: with
start-group 5, start-object 0, end-group 5 and end-object absent the
table dictates kAbsoluteRange, while GetFilterType reaches the
undefined dereference of the absent end_object (moqt_messages.cc line
32) and returns no defined filter type. -/
theorem getFilterType_table_divergence :
    specFilterType (some 5) (some 0) (some 5) none =
      MoqtFilterType.kAbsoluteRange ∧
    GetFilterType
      { subscribe_id := 3, track_alias := 4, track_namespace := "foo",
        track_name := "abcd", subscriber_priority := 32, group_order := none,
        start_group := some 5, start_object := some 0, end_group := some 5,
        end_object := none,
        parameters := { authorization_info := some "bar" } } = none :=
  ⟨rfl, rfl⟩

/-- C2: the claim that GetFilterType never dereferences an absent
optional and always returns a filter type fails: with start-group 1,
start-object 2, end-group 1 and end-object absent, line 32 of
moqt_messages.cc evaluates star-end_object on the absent end_object
(undefined behavior), so no defined filter type is returned. -/
theorem getFilterType_absent_end_object_dereference :
    GetFilterType
      { subscribe_id := 1, track_alias := 2, track_namespace := "ns",
        track_name := "nm", subscriber_priority := 16, group_order := none,
        start_group := some 1, start_object := some 2, end_group := some 1,
        end_object := none,
        parameters := { authorization_info := none } } = none :=
  rfl

/-- C10: GetFilterType reads only the four range fields: any two
MoqtSubscribe messages agreeing on start-group, start-object,
end-group and end-object get the same classification, whatever their
subscribe id, track alias, namespace, name, priority, group order or
parameters. -/
theorem getFilterType_depends_only_on_range :
    ∀ m1 m2 : MoqtSubscribe,
      m1.start_group = m2.start_group → m1.start_object = m2.start_object →
      m1.end_group = m2.end_group → m1.end_object = m2.end_object →
      GetFilterType m1 = GetFilterType m2 := by
  intro m1 m2 h1 h2 h3 h4
  unfold GetFilterType
  rw [h1, h2, h3, h4]

theorem getFilterType_depends_only_on_range_witness :
    GetFilterType
      { subscribe_id := 1, track_alias := 2, track_namespace := "a",
        track_name := "b", subscriber_priority := 3, group_order := none,
        start_group := some 4, start_object := some 0, end_group := none,
        end_object := none, parameters := { authorization_info := some "x" } } =
    GetFilterType
      { subscribe_id := 9, track_alias := 8, track_namespace := "c",
        track_name := "d", subscriber_priority := 7, group_order := some 1,
        start_group := some 4, start_object := some 0, end_group := none,
        end_object := none, parameters := { authorization_info := none } } :=
  getFilterType_depends_only_on_range _ _ rfl rfl rfl rfl

/-- C7: the two symbol-table mappings are exact inverses: every
non-Padding data-stream kind round-trips through its forwarding
preference, and every forwarding preference round-trips through its
data-stream kind. -/
theorem forwarding_preference_stream_kind_bijection :
    (∀ s : MoqtDataStreamType, s ≠ MoqtDataStreamType.kPadding →
      GetMessageTypeForForwardingPreference (GetForwardingPreference s) = s) ∧
    (∀ p : MoqtForwardingPreference,
      GetForwardingPreference (GetMessageTypeForForwardingPreference p) = p) := by
  constructor
  · intro s hs
    cases s <;> first | rfl | exact absurd rfl hs
  · intro p
    cases p <;> rfl

theorem forwarding_preference_stream_kind_bijection_witness :
    GetMessageTypeForForwardingPreference
      (GetForwardingPreference MoqtDataStreamType.kStreamHeaderGroup) =
      MoqtDataStreamType.kStreamHeaderGroup ∧
    GetForwardingPreference
      (GetMessageTypeForForwardingPreference MoqtForwardingPreference.kDatagram) =
      MoqtForwardingPreference.kDatagram :=
  ⟨forwarding_preference_stream_kind_bijection.1
      MoqtDataStreamType.kStreamHeaderGroup (by decide),
   forwarding_preference_stream_kind_bijection.2
      MoqtForwardingPreference.kDatagram⟩

/-- C8: calling GetForwardingPreference with the Padding stream kind
executes the QUIC_BUG fatal-assertion branch (the switch default), and
no other declared stream kind does: the Padding call is a loud
contract violation, not a silent success. -/
theorem padding_forwarding_preference_hits_bug :
    GetForwardingPreferenceHitsBug MoqtDataStreamType.kPadding = true ∧
    GetForwardingPreferenceHitsBug MoqtDataStreamType.kObjectStream = false ∧
    GetForwardingPreferenceHitsBug MoqtDataStreamType.kObjectDatagram = false ∧
    GetForwardingPreferenceHitsBug MoqtDataStreamType.kStreamHeaderTrack = false ∧
    GetForwardingPreferenceHitsBug MoqtDataStreamType.kStreamHeaderGroup = false := by
  decide

/-- C9: for every 64-bit value v, IntegerToObjectStatus returns the
invalid sentinel exactly when v is at least 5, and for v below 5 it
returns a declared object status whose wire value is v. -/
theorem integer_to_object_status_spec :
    ∀ v : Nat, v < 2 ^ 64 →
      (IntegerToObjectStatus v = MoqtObjectStatus.kInvalidObjectStatus ↔ 5 ≤ v) ∧
      (v < 5 →
        IntegerToObjectStatus v ≠ MoqtObjectStatus.kInvalidObjectStatus ∧
        objectStatusWire (IntegerToObjectStatus v) = v) := by
  intro v _
  by_cases h5 : 5 ≤ v
  · refine ⟨⟨fun _ => h5, fun _ => ?_⟩, fun hlt => absurd hlt (by omega)⟩
    unfold IntegerToObjectStatus
    simp [h5]
  · have hlt : v < 5 := by omega
    refine ⟨⟨fun h => ?_, fun h => absurd h h5⟩, fun _ => ?_⟩
    · exfalso
      interval_cases v <;> simp [IntegerToObjectStatus] at h
    · interval_cases v <;>
        simp [IntegerToObjectStatus, objectStatusWire]

theorem integer_to_object_status_spec_witness :
    objectStatusWire (IntegerToObjectStatus 3) = 3 ∧
    IntegerToObjectStatus 9 = MoqtObjectStatus.kInvalidObjectStatus :=
  ⟨((integer_to_object_status_spec 3 (by norm_num)).2 (by norm_num)).2,
   (integer_to_object_status_spec 9 (by norm_num)).1.mpr (by norm_num)⟩

/-- C3: SerializeSubscribe fails fatally with the invalid-range
diagnostic and zero output bytes exactly when the section 4.2 filter
type of the message's range fields is kNone, and produces a non-empty
encoding for every other filter type. -/
theorem serialize_subscribe_none_fails :
    ∀ m : MoqtSubscribe,
      (specFilterType m.start_group m.start_object m.end_group m.end_object =
          MoqtFilterType.kNone →
        serializeSubscribe m = FramerResult.bug "Invalid object range" ∧
        (serializeSubscribe m).output = []) ∧
      (specFilterType m.start_group m.start_object m.end_group m.end_object ≠
          MoqtFilterType.kNone →
        (serializeSubscribe m).output ≠ []) := by
  intro m
  constructor
  · intro h
    unfold serializeSubscribe
    rw [h]
    exact ⟨rfl, rfl⟩
  · intro h
    cases hft : specFilterType m.start_group m.start_object m.end_group
        m.end_object with
    | kNone => exact absurd hft h
    | _ =>
      unfold serializeSubscribe
      rw [hft]
      simp only [FramerResult.output]
      intro hnil
      simp only [List.append_eq_nil] at hnil
      exact subscribeHeadBytes_ne_nil m hnil.1.1.1

theorem serialize_subscribe_none_fails_witness :
    serializeSubscribe
      { subscribe_id := 3, track_alias := 4, track_namespace := "foo",
        track_name := "abcd", subscriber_priority := 32, group_order := none,
        start_group := none, start_object := none, end_group := none,
        end_object := some 3,
        parameters := { authorization_info := some "bar" } } =
      FramerResult.bug "Invalid object range" ∧
    (serializeSubscribe
      { subscribe_id := 3, track_alias := 4, track_namespace := "foo",
        track_name := "abcd", subscriber_priority := 32, group_order := none,
        start_group := none, start_object := none, end_group := none,
        end_object := none,
        parameters := { authorization_info := some "bar" } }).output ≠ [] :=
  ⟨((serialize_subscribe_none_fails _).1 (by decide)).1,
   (serialize_subscribe_none_fails _).2 (by decide)⟩

/-- C4: when the derived filter type is kAbsoluteRange and the caller
supplied all four range endpoints, SerializeSubscribe emits the range
fields start-group, start-object, end-group, and the caller's inclusive
end-object incremented by one (the exclusive wire bound), in that
order, as the varint block between the filter tag and the parameter
map. -/
theorem serialize_subscribe_absolute_range_fields :
    ∀ (m : MoqtSubscribe) (s o g e : Nat),
      m.start_group = some s → m.start_object = some o →
      m.end_group = some g → m.end_object = some e →
      specFilterType m.start_group m.start_object m.end_group m.end_object =
        MoqtFilterType.kAbsoluteRange →
      subscribeRangeFields m MoqtFilterType.kAbsoluteRange = [s, o, g, e + 1] ∧
      serializeSubscribe m =
        FramerResult.ok
          (subscribeHeadBytes m ++
           varint (filterTypeWire MoqtFilterType.kAbsoluteRange) ++
           (List.map varint [s, o, g, e + 1]).flatten ++
           subscribeParamBytes m.parameters) := by
  intro m s o g e hs ho hg he hft
  have hr : subscribeRangeFields m MoqtFilterType.kAbsoluteRange =
      [s, o, g, e + 1] := by
    simp [subscribeRangeFields, hs, ho, hg, he]
  refine ⟨hr, ?_⟩
  unfold serializeSubscribe
  rw [hft]
  simp only [hr]

theorem serialize_subscribe_absolute_range_fields_witness :
    subscribeRangeFields
      { subscribe_id := 3, track_alias := 4, track_namespace := "foo",
        track_name := "abcd", subscriber_priority := 32, group_order := none,
        start_group := some 4, start_object := some 0, end_group := some 7,
        end_object := some 3,
        parameters := { authorization_info := some "bar" } }
      MoqtFilterType.kAbsoluteRange = [4, 0, 7, 4] ∧
    serializeSubscribe
      { subscribe_id := 3, track_alias := 4, track_namespace := "foo",
        track_name := "abcd", subscriber_priority := 32, group_order := none,
        start_group := some 4, start_object := some 0, end_group := some 7,
        end_object := some 3,
        parameters := { authorization_info := some "bar" } } =
      FramerResult.ok
        (subscribeHeadBytes
          { subscribe_id := 3, track_alias := 4, track_namespace := "foo",
            track_name := "abcd", subscriber_priority := 32, group_order := none,
            start_group := some 4, start_object := some 0, end_group := some 7,
            end_object := some 3,
            parameters := { authorization_info := some "bar" } } ++
         varint (filterTypeWire MoqtFilterType.kAbsoluteRange) ++
         (List.map varint [4, 0, 7, 4]).flatten ++
         subscribeParamBytes { authorization_info := some "bar" }) :=
  serialize_subscribe_absolute_range_fields _ 4 0 7 3 rfl rfl rfl rfl (by decide)

/-- C5: SerializeObjectHeader enforces its three preconditions, each
violation failing fatally with the named diagnostic and an empty
output buffer: Datagram preference off the first object fails with the
must-be-first diagnostic; Group preference without a payload length
fails with the length-required diagnostic whatever is_first_in_stream;
a supplied non-zero payload length with a status other than kNormal
(for a call not already rejected as a non-initial datagram) fails with
the status/payload-mismatch diagnostic; and when no precondition is
violated the call returns a non-empty encoding. -/
theorem serialize_object_header_preconditions :
    ∀ (obj : MoqtObject) (first : Bool),
      (obj.forwarding_preference = MoqtForwardingPreference.kDatagram →
        first = false →
        serializeObjectHeader obj first = FramerResult.bug "must be first" ∧
        (serializeObjectHeader obj first).output = []) ∧
      (obj.forwarding_preference = MoqtForwardingPreference.kGroup →
        obj.payload_length = none →
        serializeObjectHeader obj first =
          FramerResult.bug "requires knowing the object length" ∧
        (serializeObjectHeader obj first).output = []) ∧
      (∀ n : Nat,
        ¬(obj.forwarding_preference = MoqtForwardingPreference.kDatagram ∧
          first = false) →
        obj.payload_length = some n → n ≠ 0 →
        obj.object_status ≠ MoqtObjectStatus.kNormal →
        serializeObjectHeader obj first =
          FramerResult.bug "Object status must be kNormal if payload is non-empty" ∧
        (serializeObjectHeader obj first).output = []) ∧
      (¬(obj.forwarding_preference = MoqtForwardingPreference.kDatagram ∧
          first = false) →
        ¬(obj.forwarding_preference = MoqtForwardingPreference.kGroup ∧
          obj.payload_length = none) →
        ¬(obj.payload_length.getD 0 ≠ 0 ∧
          obj.object_status ≠ MoqtObjectStatus.kNormal) →
        serializeObjectHeader obj first =
          FramerResult.ok (objectHeaderBytes obj first) ∧
        (serializeObjectHeader obj first).output ≠ []) := by
  intro obj first
  refine ⟨?_, ?_, ?_, ?_⟩
  · intro hp hf
    simp [serializeObjectHeader, hp, hf, FramerResult.output]
  · intro hp hl
    simp [serializeObjectHeader, hp, hl, FramerResult.output]
  · intro n hex hl hn hs
    have hc2 : ¬(obj.forwarding_preference = MoqtForwardingPreference.kGroup ∧
        obj.payload_length = none) := by
      rintro ⟨_, hnone⟩
      rw [hl] at hnone
      exact Option.some_ne_none n hnone
    have hc3 : obj.payload_length.getD 0 ≠ 0 ∧
        obj.object_status ≠ MoqtObjectStatus.kNormal := by
      refine ⟨?_, hs⟩
      rw [hl]
      simpa using hn
    rw [serializeObjectHeader, if_neg hex, if_neg hc2, if_pos hc3]
    exact ⟨rfl, rfl⟩
  · intro h1 h2 h3
    rw [serializeObjectHeader, if_neg h1, if_neg h2, if_neg h3]
    exact ⟨rfl, objectHeaderBytes_ne_nil obj first⟩

theorem serialize_object_header_preconditions_witness :
    serializeObjectHeader
      { subscribe_id := 3, track_alias := 4, group_id := 5, object_id := 6,
        publisher_priority := 7, object_status := MoqtObjectStatus.kNormal,
        forwarding_preference := MoqtForwardingPreference.kDatagram,
        payload_length := none } false = FramerResult.bug "must be first" ∧
    serializeObjectHeader
      { subscribe_id := 3, track_alias := 4, group_id := 5, object_id := 6,
        publisher_priority := 7, object_status := MoqtObjectStatus.kNormal,
        forwarding_preference := MoqtForwardingPreference.kGroup,
        payload_length := none } false =
      FramerResult.bug "requires knowing the object length" ∧
    serializeObjectHeader
      { subscribe_id := 3, track_alias := 4, group_id := 5, object_id := 6,
        publisher_priority := 7, object_status := MoqtObjectStatus.kEndOfGroup,
        forwarding_preference := MoqtForwardingPreference.kGroup,
        payload_length := some 5 } false =
      FramerResult.bug "Object status must be kNormal if payload is non-empty" :=
  ⟨((serialize_object_header_preconditions _ false).1 rfl rfl).1,
   ((serialize_object_header_preconditions _ false).2.1 rfl rfl).1,
   ((serialize_object_header_preconditions _ false).2.2.1 5 (by decide) rfl
      (by decide) (by decide)).1⟩

/-- C6: for every SubscribeUpdate with end-group present,
SerializeSubscribeUpdate emits a wire end-group field equal to the
caller's end-group plus one, and a wire end-object field equal to the
caller's end-object plus one when present and to the literal 0 when
absent, the five integer fields going to the wire in order as
varints. -/
theorem serialize_subscribe_update_increments_end :
    ∀ (m : MoqtSubscribeUpdate) (g : Nat), m.end_group = some g →
      (subscribeUpdateWireFields m)[3]? = some (g + 1) ∧
      (m.end_object = none → (subscribeUpdateWireFields m)[4]? = some 0) ∧
      (∀ o : Nat, m.end_object = some o →
        (subscribeUpdateWireFields m)[4]? = some (o + 1)) ∧
      serializeSubscribeUpdate m =
        FramerResult.ok
          (varint 2 ++ ((subscribeUpdateWireFields m).map varint).flatten ++
           [m.subscriber_priority % 256] ++
           (match m.authorization_info with
            | some s => varint 1 ++ varint 2 ++ stringField s
            | none => varint 0)) := by
  intro m g hg
  refine ⟨?_, ?_, ?_, ?_⟩
  · simp [subscribeUpdateWireFields, hg]
  · intro ho
    simp [subscribeUpdateWireFields, ho]
  · intro o ho
    simp [subscribeUpdateWireFields, ho]
  · rw [serializeSubscribeUpdate, if_neg ?_]
    rintro ⟨hnone, _⟩
    rw [hg] at hnone
    exact Option.some_ne_none g hnone

theorem serialize_subscribe_update_increments_end_witness :
    (subscribeUpdateWireFields
      { subscribe_id := 3, start_group := 4, start_object := 3,
        end_group := some 4, end_object := none, subscriber_priority := 170,
        authorization_info := some "bar" })[3]? = some 5 ∧
    (subscribeUpdateWireFields
      { subscribe_id := 3, start_group := 4, start_object := 3,
        end_group := some 4, end_object := none, subscriber_priority := 170,
        authorization_info := some "bar" })[4]? = some 0 ∧
    (subscribeUpdateWireFields
      { subscribe_id := 3, start_group := 4, start_object := 3,
        end_group := some 4, end_object := some 6, subscriber_priority := 170,
        authorization_info := some "bar" })[4]? = some 7 :=
  ⟨(serialize_subscribe_update_increments_end _ 4 rfl).1,
   (serialize_subscribe_update_increments_end _ 4 rfl).2.1 rfl,
   (serialize_subscribe_update_increments_end _ 4 rfl).2.2.1 6 rfl⟩

end Moqt
